import Mathlib

/-!
# Train Booking API — shallow embedding and verification

This file embeds the request handlers of `app/main.py` (a FastAPI + SQLAlchemy
train-booking backend) as pure Lean functions over an explicit database state,
and proves the behavioural properties stated in the project specification.

Modelling conventions:
* The SQLite database is a `DB` record of lists of rows plus auto-increment
  counters; `query(...).filter(...).first()` becomes `List.find?`, in-place ORM
  mutation of the row returned by `first()` becomes `updateFirst` (update of the
  first matching element), `db.delete` becomes `removeFirst`.
* `HTTPException(status_code, detail)` becomes the `Except` error channel
  carrying an `HTTPError`.  A raised exception aborts the handler before
  `db.commit()`, and the scoped session (`get_db`) rolls back on close, so an
  error result carries no new state: the database is unchanged.
* Python truthiness of the optional values the handlers test is made explicit
  (`None` and `""` are falsy for strings, `None` and `0` for integers).
* JWT tokens are modelled symbolically: `jwt.encode` pairs the payload with the
  signing secret, `jwt.decode` checks the secret and the `exp` claim against
  the current time (a `Nat`, minutes since some epoch).  bcrypt hashing
  (`passlib.CryptContext`, an external library) is abstracted by a definable
  injective tagging function with the same verify-against-hash contract.
* Python `float` values carry no arithmetic in this code base, so they are
  embedded as `Rat`; `float(x)` coercion of a dynamic value may fail, which the
  embedding models as an `Option Rat` (non-numeric strings fail).
-/

namespace TrainBooking

/-- `HTTPException(status_code=..., detail=...)`: status code plus message. -/
structure HTTPError where
  status : Nat
  detail : String
deriving DecidableEq, Repr

-- CONFIG (main.py lines 12-15)

/-- `JWT_SECRET` from main.py. -/
def JWT_SECRET : String := "e3f6eab1d1015fed53eb829"

/-- `ACCESS_TOKEN_EXPIRE_MINUTES = 60 * 24` (one day), in minutes. -/
def ACCESS_TOKEN_EXPIRE_MINUTES : Nat := 60 * 24

-- Generic list helpers standing for ORM row mutation / deletion.

/-- Update the first element satisfying `p` (SQLAlchemy mutates the single row
object returned by `.first()`; all other rows are untouched). -/
def updateFirst (p : α → Bool) (f : α → α) : List α → List α
  | [] => []
  | x :: xs => if p x then f x :: xs else x :: updateFirst p f xs

/-- Remove the first element satisfying `p` (`db.delete(row)`). -/
def removeFirst (p : α → Bool) : List α → List α
  | [] => []
  | x :: xs => if p x then xs else x :: removeFirst p xs

-- Python string helpers.

/-- Python truthiness of an optional string: `None` and `""` are falsy. -/
def strTruthy : Option String → Bool
  | Option.none => false
  | some s => s ≠ ""

/-- Python `a or b` on optional strings: keeps `a` when truthy, else `b`. -/
def pyOr (a b : Option String) : Option String :=
  if strTruthy a then a else b

/-- `needle` is a prefix of `hay` (on character lists). -/
def leadsWith : List Char → List Char → Bool
  | [], _ => true
  | _ :: _, [] => false
  | n :: ns, h :: hs => n == h && leadsWith ns hs

/-- `needle` occurs as a contiguous substring of `hay` (on character lists). -/
def occursIn : List Char → List Char → Bool
  | ns, [] => ns.isEmpty
  | ns, h :: hs => leadsWith ns (h :: hs) || occursIn ns hs

/-- ASCII lower-casing of one character (the case folding `ILIKE` performs). -/
def lowerChar (c : Char) : Char :=
  if 65 ≤ c.toNat ∧ c.toNat ≤ 90 then Char.ofNat (c.toNat + 32) else c

/-- A string as a lower-cased character list. -/
def lowerStr (s : String) : List Char :=
  s.data.map lowerChar

/-- SQL `column ILIKE '%pat%'`: case-insensitive substring containment. -/
def ilikeContains (column pat : String) : Bool :=
  occursIn (lowerStr pat) (lowerStr column)

-- --- Models (ORM rows, main.py lines 27-74) ---

/-- `users` table row. -/
structure User where
  id : Nat
  email : String
  hashed_password : String
  name : Option String
  phone : Option String
  city : Option String
  is_admin : Bool
deriving DecidableEq, Repr

/-- `trains` table row. -/
structure Train where
  id : Nat
  from_city : String
  to_city : String
  time : String
  price : Rat
deriving DecidableEq, Repr

/-- `orders` table row. -/
structure Order where
  id : Nat
  user_id : Nat
  train_id : Nat
  passenger_name : String
  passenger_age : Nat
  paid : Bool
deriving DecidableEq, Repr

/-- `passengers` table row. -/
structure Passenger where
  id : Nat
  user_id : Option Nat
  name : String
  age : Nat
deriving DecidableEq, Repr

/-- `promotions` table row. -/
structure Promotion where
  id : Nat
  title : String
  description : Option String
deriving DecidableEq, Repr

/-- `support_tickets` table row. -/
structure SupportTicket where
  id : Nat
  user_id : Option Nat
  message : String
  resolved : Bool
deriving DecidableEq, Repr

/-- The whole relational store, with auto-increment counters for primary keys. -/
structure DB where
  users : List User
  trains : List Train
  orders : List Order
  passengers : List Passenger
  promotions : List Promotion
  tickets : List SupportTicket
  nextUserId : Nat
  nextTrainId : Nat
  nextOrderId : Nat
  nextPassengerId : Nat
  nextTicketId : Nat
deriving DecidableEq, Repr

-- --- Pydantic schemas (main.py lines 77-106) ---

/-- `RegisterSchema`. -/
structure RegisterSchema where
  email : String
  password : String
deriving DecidableEq, Repr

/-- `LoginSchema`. -/
structure LoginSchema where
  email : String
  password : String
deriving DecidableEq, Repr

/-- `TrainSchema` (id optional; price a Python float). -/
structure TrainSchema where
  id : Option Nat
  from_city : String
  to_city : String
  time : String
  price : Rat
deriving DecidableEq, Repr

/-- `PassengerSchema`. -/
structure PassengerSchema where
  name : String
  age : Nat
deriving DecidableEq, Repr

/-- `OrderCreateSchema`.  Fields are `Option` so that an absent field of the
incoming JSON body is representable; the handler's `not payload.trainId`
truthiness test rejects both an absent and a zero `trainId`. -/
structure OrderCreateSchema where
  trainId : Option Nat
  passenger : Option PassengerSchema
deriving DecidableEq, Repr

/-- Python truthiness of the optional integer `trainId`: `None` and `0` falsy. -/
def natTruthy : Option Nat → Bool
  | Option.none => false
  | some n => n ≠ 0

/-- `ProfileSchema` — all three fields optional, default `None`. -/
structure ProfileSchema where
  name : Option String
  phone : Option String
  city : Option String
deriving DecidableEq, Repr

-- Dynamic Python values (`Dict[str, object]` payloads).

/-- A dynamic (JSON-decoded) Python value as it appears in `Dict[str, object]`
payloads. -/
inductive PyVal where
  | str (s : String)
  | int (n : Int)
  | float (q : Rat)
  | pynone
deriving DecidableEq, Repr

/-- Python `float(v)` coercion attempt.  Numbers coerce; `None` raises; string
parsing of numeric literals is abstracted as failure (the non-coercible case —
the theorems only branch on whether coercion succeeds). -/
def pyToFloat : PyVal → Option Rat
  | .int n => some (n : Rat)
  | .float q => some q
  | .str _ => Option.none
  | .pynone => Option.none

/-- Python `str(v)` coercion (never fails). -/
def pyToStr : PyVal → String
  | .str s => s
  | .int n => toString n
  | .float q => toString q
  | .pynone => "None"

-- --- Utilities (main.py lines 116-153) ---

/-- Abstraction of `pwd_context.hash` (bcrypt, an external library primitive):
a definable injective tagging of the password. -/
def hash_password (password : String) : String :=
  "bcrypt$" ++ password

/-- Abstraction of `pwd_context.verify`: true iff the password matches the
stored hash under the same scheme. -/
def verify_password (plain_password hashed_password : String) : Bool :=
  hash_password plain_password == hashed_password

/-- The claims dictionary passed to `create_access_token` (its single call site
uses `{"user_id": user.id}`; `payload.get("user_id")` may be absent). -/
structure JwtClaims where
  user_id : Option Nat
deriving DecidableEq, Repr

/-- An encoded JWT payload: the claims plus the `exp` claim added at issue
time (minutes). -/
structure JwtPayload where
  claims : JwtClaims
  exp : Nat
deriving DecidableEq, Repr

/-- A bearer token string, symbolically: either the output of `jwt.encode`
(payload signed with a secret) or any other string (garbage). -/
inductive JwtToken where
  | signed (payload : JwtPayload) (secret : String)
  | garbage (s : String)
deriving DecidableEq, Repr

/-- The two failure modes of `jwt.decode` distinguished by the middleware. -/
inductive JwtError where
  | expired
  | invalid
deriving DecidableEq, Repr

/-- `jwt.decode(token, secret, algorithms=...)` at current time `now`:
signature (secret) mismatch or malformed token is invalid; an `exp` claim in
the past raises `ExpiredSignatureError`. -/
def jwtDecode (tok : JwtToken) (secret : String) (now : Nat) :
    Except JwtError JwtPayload :=
  match tok with
  | .garbage _ => .error .invalid
  | .signed p s =>
    if s ≠ secret then .error .invalid
    else if p.exp ≤ now then .error .expired
    else .ok p

/-- `create_access_token(data, expires_delta=None)` (main.py lines 122-130):
copies the claims, adds `exp = now + delta` (default
`ACCESS_TOKEN_EXPIRE_MINUTES`), signs with `JWT_SECRET`. -/
def create_access_token (data : JwtClaims) (expires_delta : Option Nat)
    (now : Nat) : JwtToken :=
  let expire := match expires_delta with
    | some d => now + d
    | Option.none => now + ACCESS_TOKEN_EXPIRE_MINUTES
  .signed ⟨data, expire⟩ JWT_SECRET

/-- The `Authorization` header: absent (`None`), `"Bearer <token>"`, or any
string not starting with `"Bearer "`. -/
inductive AuthHeader where
  | bearer (tok : JwtToken)
  | malformed (s : String)
deriving DecidableEq, Repr

/-- `get_current_user` (main.py lines 132-148): 401 for a missing header, a
header without the `Bearer ` marker, or an invalid/expired token; 404 when the
embedded user id matches no user row; otherwise the resolved user. -/
def get_current_user (authorization : Option AuthHeader) (db : DB)
    (now : Nat) : Except HTTPError User :=
  match authorization with
  | Option.none => .error ⟨401, "Not authenticated"⟩
  | some (.malformed _) => .error ⟨401, "Invalid auth header"⟩
  | some (.bearer tok) =>
    match jwtDecode tok JWT_SECRET now with
    | .error .expired => .error ⟨401, "Token expired"⟩
    | .error .invalid => .error ⟨401, "Invalid token"⟩
    | .ok payload =>
      match db.users.find? (fun u => some u.id == payload.claims.user_id) with
      | Option.none => .error ⟨404, "User not found"⟩
      | some u => .ok u

/-- `require_admin` (main.py lines 150-153): the `get_current_user` dependency
runs first (its failure propagates); a resolved non-admin user gets 403. -/
def require_admin (authorization : Option AuthHeader) (db : DB)
    (now : Nat) : Except HTTPError User :=
  match get_current_user authorization db now with
  | .error e => .error e
  | .ok u =>
    if !u.is_admin then .error ⟨403, "Admin privileges required"⟩
    else .ok u

-- --- Response shapes (the dicts the handlers return) ---

/-- `{"id", "from", "to", "time", "price"}` train projection. -/
structure TrainView where
  id : Nat
  from_ : String
  to_ : String
  time : String
  price : Rat
deriving DecidableEq, Repr

/-- Order summary returned by `create_order`. -/
structure CreateOrderResp where
  message : String
  order_id : Nat
  trainId : Nat
  paid : Bool
deriving DecidableEq, Repr

/-- `{"id", "trainId", "paid", "passenger_name", "passenger_age"}` projection. -/
structure OrderView where
  id : Nat
  trainId : Nat
  paid : Bool
  passenger_name : String
  passenger_age : Nat
deriving DecidableEq, Repr

/-- `pay_order` response: a message, plus `order_id` on a fresh payment. -/
structure PayResp where
  message : String
  order_id : Option Nat
deriving DecidableEq, Repr

/-- `{"name", "phone", "city", "email"}` profile projection. -/
structure ProfileView where
  name : Option String
  phone : Option String
  city : Option String
  email : String
deriving DecidableEq, Repr

/-- `{"id", "message", "resolved"}` ticket projection. -/
structure TicketView where
  id : Nat
  message : String
  resolved : Bool
deriving DecidableEq, Repr

/-- `{"id", "email", "is_admin", "name"}` admin user projection. -/
structure UserView where
  id : Nat
  email : String
  is_admin : Bool
  name : Option String
deriving DecidableEq, Repr

/-- `login` response: the issued token and the user id. -/
structure LoginResp where
  token : JwtToken
  user_id : Nat
deriving DecidableEq, Repr

-- --- Auth endpoints (main.py lines 156-175) ---

/-- `POST /auth/register` (main.py lines 156-165): 400 when the email is
taken, else insert the user (hashed password, defaults) and return its id. -/
def register (data : RegisterSchema) (db : DB) : Except HTTPError (DB × Nat) :=
  match db.users.find? (fun u => u.email == data.email) with
  | some _ => .error ⟨400, "Такой пользователь уже существует"⟩
  | Option.none =>
    let user : User :=
      ⟨db.nextUserId, data.email, hash_password data.password,
       Option.none, Option.none, Option.none, false⟩
    .ok ({ db with users := db.users ++ [user],
                   nextUserId := db.nextUserId + 1 }, user.id)

/-- `POST /auth/login` (main.py lines 167-175): 404 for an unknown email, 401
for a failed password check, else a fresh token plus the user id. -/
def login (data : LoginSchema) (db : DB) (now : Nat) :
    Except HTTPError LoginResp :=
  match db.users.find? (fun u => u.email == data.email) with
  | Option.none => .error ⟨404, "Пользователь не найден"⟩
  | some user =>
    if !verify_password data.password user.hashed_password then
      .error ⟨401, "Неправильный логин или пароль"⟩
    else
      .ok ⟨create_access_token ⟨some user.id⟩ Option.none now, user.id⟩

-- --- Trains (main.py lines 178-193) ---

/-- The dict a `Train` row is serialized to. -/
def Train.view (t : Train) : TrainView :=
  ⟨t.id, t.from_city, t.to_city, t.time, t.price⟩

/-- `GET /api/trains/search` (main.py lines 178-186): optional `from`/`to`
query filters, each applied when truthy, via case-insensitive substring
(`ilike '%…%'`) on origin / destination. -/
def search_trains (from_ to_ : Option String) (db : DB) : List TrainView :=
  let q := db.trains
  let q := if strTruthy from_ then
      q.filter (fun t => ilikeContains t.from_city (from_.getD "")) else q
  let q := if strTruthy to_ then
      q.filter (fun t => ilikeContains t.to_city (to_.getD "")) else q
  q.map Train.view

/-- `GET /api/trains/{train_id}` (main.py lines 188-193). -/
def get_train (train_id : Nat) (db : DB) : Except HTTPError TrainView :=
  match db.trains.find? (fun t => t.id == train_id) with
  | Option.none => .error ⟨404, "Train not found"⟩
  | some t => .ok t.view

-- --- Orders (main.py lines 196-223) ---

/-- `POST /api/orders` (main.py lines 196-207): 400 when `trainId` or
`passenger` is falsy (absent), 404 when the train does not exist, else insert
an order owned by the acting user (`paid` defaults to false). -/
def create_order (payload : OrderCreateSchema) (user : User) (db : DB) :
    Except HTTPError (DB × CreateOrderResp) :=
  if !natTruthy payload.trainId || payload.passenger.isNone then
    .error ⟨400, "trainId and passenger are required"⟩
  else
    match db.trains.find? (fun t => some t.id == payload.trainId) with
    | Option.none => .error ⟨404, "Train not found"⟩
    | some train =>
      let pass := payload.passenger.getD ⟨"", 0⟩
      let order : Order :=
        ⟨db.nextOrderId, user.id, train.id, pass.name, pass.age, false⟩
      .ok ({ db with orders := db.orders ++ [order],
                     nextOrderId := db.nextOrderId + 1 },
           ⟨"Ticket booked", order.id, order.train_id, order.paid⟩)

/-- `GET /api/orders` (main.py lines 209-212): the acting user's orders. -/
def get_orders (user : User) (db : DB) : List OrderView :=
  (db.orders.filter (fun o => o.user_id == user.id)).map
    (fun o => ⟨o.id, o.train_id, o.paid, o.passenger_name, o.passenger_age⟩)

/-- `POST /api/orders/{order_id}/pay` (main.py lines 214-223): 404 when no
order with that id is owned by the acting user; a no-op success when already
paid; else flip `paid` to true on that row and commit. -/
def pay_order (order_id : Nat) (user : User) (db : DB) :
    Except HTTPError (DB × PayResp) :=
  match db.orders.find? (fun o => o.id == order_id && o.user_id == user.id) with
  | Option.none => .error ⟨404, "Order not found"⟩
  | some order =>
    if order.paid then .ok (db, ⟨"Order already paid", Option.none⟩)
    else
      let orders' :=
        updateFirst (fun o => o.id == order_id && o.user_id == user.id)
          (fun o => { o with paid := true }) db.orders
      .ok ({ db with orders := orders' }, ⟨"Payment successful", some order.id⟩)

-- --- Profile (main.py lines 226-238) ---

/-- `GET /api/profile` (main.py lines 226-228). -/
def get_profile (user : User) : ProfileView :=
  ⟨user.name, user.phone, user.city, user.email⟩

/-- The three assignments `user.f = profile.f or user.f` of the profile
update handler, applied to the acting user's row. -/
def applyProfile (profile : ProfileSchema) (u : User) : User :=
  { u with name := pyOr profile.name u.name,
           phone := pyOr profile.phone u.phone,
           city := pyOr profile.city u.city }

/-- `PUT /api/profile` (main.py lines 230-238): 400 only when all three fields
are `None`; otherwise each field is written as `profile.f or user.f` (a falsy
— absent or empty — field keeps the stored value) on the acting user's row. -/
def update_profile (profile : ProfileSchema) (user : User) (db : DB) :
    Except HTTPError (DB × String) :=
  if profile.name = Option.none ∧ profile.phone = Option.none ∧
     profile.city = Option.none then
    .error ⟨400, "Invalid input data"⟩
  else
    let users' :=
      updateFirst (fun u => u.id == user.id) (applyProfile profile) db.users
    .ok ({ db with users := users' }, "Profile updated")

-- --- Promotions / Passengers / Support (main.py lines 241-277) ---

/-- `GET /api/promotions` (main.py lines 241-244). -/
def list_promotions (db : DB) : List Promotion :=
  db.promotions

/-- `GET /api/passengers` (main.py lines 247-250): the acting user's
passengers plus unowned ones. -/
def list_passengers (user : User) (db : DB) : List Passenger :=
  db.passengers.filter
    (fun p => p.user_id == some user.id || p.user_id == Option.none)

/-- `POST /api/passengers` (main.py lines 252-260): 400 when the name is falsy
(`p.age is None` is never true for the required int field), else insert. -/
def add_passenger (p : PassengerSchema) (user : User) (db : DB) :
    Except HTTPError (DB × Nat) :=
  if p.name == "" then .error ⟨400, "Invalid passenger data"⟩
  else
    let passenger : Passenger := ⟨db.nextPassengerId, some user.id, p.name, p.age⟩
    .ok ({ db with passengers := db.passengers ++ [passenger],
                   nextPassengerId := db.nextPassengerId + 1 }, passenger.id)

/-- `GET /api/support/tickets` (main.py lines 263-266). -/
def list_tickets (user : User) (db : DB) : List TicketView :=
  (db.tickets.filter (fun t => t.user_id == some user.id)).map
    (fun t => ⟨t.id, t.message, t.resolved⟩)

/-- `POST /api/support/tickets` (main.py lines 268-277): the body is a
`Dict[str, str]`; 400 when `payload.get("message")` is falsy, else insert a
ticket with `resolved` defaulting to false. -/
def create_ticket (payload : List (String × String)) (user : User) (db : DB) :
    Except HTTPError (DB × Nat) :=
  let message := payload.lookup "message"
  if !strTruthy message then .error ⟨400, "Message is required"⟩
  else
    let ticket : SupportTicket :=
      ⟨db.nextTicketId, some user.id, message.getD "", false⟩
    .ok ({ db with tickets := db.tickets ++ [ticket],
                   nextTicketId := db.nextTicketId + 1 }, ticket.id)

-- --- Admin endpoints (main.py lines 280-327) ---

/-- `GET /api/admin/flights` (main.py lines 280-283). -/
def admin_list_flights (db : DB) : List TrainView :=
  db.trains.map Train.view

/-- `POST /api/admin/flights` (main.py lines 285-293): 400 when a string field
is falsy (`payload.price is None` is never true for the required float), else
insert the train. -/
def admin_add_flight (payload : TrainSchema) (db : DB) :
    Except HTTPError (DB × Nat) :=
  if payload.from_city == "" || payload.to_city == "" || payload.time == "" then
    .error ⟨400, "Invalid train data"⟩
  else
    let t : Train :=
      ⟨db.nextTrainId, payload.from_city, payload.to_city, payload.time,
       payload.price⟩
    .ok ({ db with trains := db.trains ++ [t],
                   nextTrainId := db.nextTrainId + 1 }, t.id)

/-- Apply the `time` / `from_city` / `to_city` writes of
`admin_update_flight` to a train row (each `str(..)`-coerced,
unconditionally, when the key is present). -/
def applyStringFields (payload : List (String × PyVal)) (t : Train) : Train :=
  let t := match payload.lookup "time" with
    | Option.none => t
    | some v => { t with time := pyToStr v }
  let t := match payload.lookup "from_city" with
    | Option.none => t
    | some v => { t with from_city := pyToStr v }
  match payload.lookup "to_city" with
  | Option.none => t
  | some v => { t with to_city := pyToStr v }

/-- `PUT /api/admin/flights/{flight_id}` (main.py lines 295-312): 404 when the
train is absent; `float(payload["price"])` is attempted first and a coercion
failure raises 400 before any field has been written (the session rolls back
uncommitted state); then each present field is written and the whole change
committed once. -/
def admin_update_flight (flight_id : Nat) (payload : List (String × PyVal))
    (db : DB) : Except HTTPError (DB × Nat) :=
  match db.trains.find? (fun t => t.id == flight_id) with
  | Option.none => .error ⟨404, "Train not found"⟩
  | some t =>
    let priced : Except HTTPError Train :=
      match payload.lookup "price" with
      | Option.none => .ok t
      | some v =>
        match pyToFloat v with
        | Option.none => .error ⟨400, "Invalid price"⟩
        | some q => .ok { t with price := q }
    match priced with
    | .error e => .error e
    | .ok t1 =>
      let t2 := applyStringFields payload t1
      .ok ({ db with trains :=
              updateFirst (fun x => x.id == flight_id) (fun _ => t2) db.trains },
           t.id)

/-- `DELETE /api/admin/flights/{flight_id}` (main.py lines 314-321). -/
def admin_delete_flight (flight_id : Nat) (db : DB) :
    Except HTTPError (DB × Nat) :=
  match db.trains.find? (fun t => t.id == flight_id) with
  | Option.none => .error ⟨404, "Train not found"⟩
  | some _ =>
    .ok ({ db with trains := removeFirst (fun t => t.id == flight_id) db.trains },
         flight_id)

/-- `GET /api/admin/users` (main.py lines 324-327). -/
def admin_list_users (db : DB) : List UserView :=
  db.users.map (fun u => ⟨u.id, u.email, u.is_admin, u.name⟩)

-- --- The request surface as a step function on the database state ---

/-- One incoming HTTP request, with whatever the corresponding route needs. -/
inductive Request where
  | register (d : RegisterSchema)
  | login (d : LoginSchema)
  | searchTrains (from_ to_ : Option String)
  | getTrain (id : Nat)
  | createOrder (auth : Option AuthHeader) (payload : OrderCreateSchema)
  | getOrders (auth : Option AuthHeader)
  | payOrder (auth : Option AuthHeader) (order_id : Nat)
  | getProfile (auth : Option AuthHeader)
  | updateProfile (auth : Option AuthHeader) (p : ProfileSchema)
  | listPromotions
  | listPassengers (auth : Option AuthHeader)
  | addPassenger (auth : Option AuthHeader) (p : PassengerSchema)
  | listTickets (auth : Option AuthHeader)
  | createTicket (auth : Option AuthHeader) (payload : List (String × String))
  | adminListFlights (auth : Option AuthHeader)
  | adminAddFlight (auth : Option AuthHeader) (payload : TrainSchema)
  | adminUpdateFlight (auth : Option AuthHeader) (fid : Nat)
      (payload : List (String × PyVal))
  | adminDeleteFlight (auth : Option AuthHeader) (fid : Nat)
  | adminListUsers (auth : Option AuthHeader)
deriving Repr

/-- The database state after a fallible handler: a raised `HTTPException`
aborts before `commit`, and the scoped session rolls back, so an error leaves
the state untouched. -/
def stateOf (e : Except HTTPError (DB × α)) (db : DB) : DB :=
  match e with
  | .ok (db', _) => db'
  | .error _ => db

/-- Run a handler behind the `get_current_user` dependency: an auth failure
returns before the handler body runs. -/
def withUser (auth : Option AuthHeader) (db : DB) (now : Nat)
    (k : User → Except HTTPError (DB × α)) : DB :=
  match get_current_user auth db now with
  | .error _ => db
  | .ok u => stateOf (k u) db

/-- Run a handler behind the `require_admin` dependency. -/
def withAdmin (auth : Option AuthHeader) (db : DB) (now : Nat)
    (e : Except HTTPError (DB × α)) : DB :=
  match require_admin auth db now with
  | .error _ => db
  | .ok _ => stateOf e db

/-- Dispatch one request at time `now` and return the resulting database
state (read-only routes never write). -/
def handle (r : Request) (now : Nat) (db : DB) : DB :=
  match r with
  | .register d => stateOf (register d db) db
  | .login _ => db
  | .searchTrains _ _ => db
  | .getTrain _ => db
  | .createOrder auth payload => withUser auth db now (fun u => create_order payload u db)
  | .getOrders _ => db
  | .payOrder auth oid => withUser auth db now (fun u => pay_order oid u db)
  | .getProfile _ => db
  | .updateProfile auth p => withUser auth db now (fun u => update_profile p u db)
  | .listPromotions => db
  | .listPassengers _ => db
  | .addPassenger auth p => withUser auth db now (fun u => add_passenger p u db)
  | .listTickets _ => db
  | .createTicket auth payload => withUser auth db now (fun u => create_ticket payload u db)
  | .adminListFlights _ => db
  | .adminAddFlight auth payload => withAdmin auth db now (admin_add_flight payload db)
  | .adminUpdateFlight auth fid payload => withAdmin auth db now (admin_update_flight fid payload db)
  | .adminDeleteFlight auth fid => withAdmin auth db now (admin_delete_flight fid db)
  | .adminListUsers _ => db

/-- Run a sequence of requests (each tagged with its arrival time). -/
def run (rs : List (Request × Nat)) (db : DB) : DB :=
  match rs with
  | [] => db
  | (r, now) :: rest => run rest (handle r now db)

-- --- Helper lemmas about the list-level primitives ---

theorem occursIn_nil (hay : List Char) : occursIn [] hay = true := by
  cases hay <;> rfl

theorem ilikeContains_empty (s : String) : ilikeContains s "" = true := by
  unfold ilikeContains
  exact occursIn_nil _

theorem updateFirst_congr_id (p : α → Bool) (f : α → α) (l : List α)
    (hf : ∀ x, f x = x) : updateFirst p f l = l := by
  induction l with
  | nil => rfl
  | cons x xs ih =>
    unfold updateFirst
    by_cases hp : p x
    · simp [hp, hf x]
    · simp [hp, ih]

theorem find?_updateFirst (p : α → Bool) (f : α → α) (l : List α)
    (hf : ∀ x, p x = true → p (f x) = true) :
    List.find? p (updateFirst p f l) = (List.find? p l).map f := by
  induction l with
  | nil => rfl
  | cons x xs ih =>
    unfold updateFirst
    by_cases hp : p x
    · simp [List.find?, hp, hf x hp]
    · simp only [Bool.not_eq_true] at hp
      simp [List.find?, hp, ih]

theorem mem_updateFirst_of_neg (p : α → Bool) (f : α → α) (l : List α)
    (x : α) (hx : x ∈ l) (hp : p x = false) : x ∈ updateFirst p f l := by
  induction l with
  | nil => cases hx
  | cons y ys ih =>
    unfold updateFirst
    rcases List.mem_cons.mp hx with h | h
    · subst h
      simp [hp]
    · by_cases hy : p y
      · simp [hy, List.mem_cons, h]
      · simp only [hy, Bool.false_eq_true, if_false, List.mem_cons]
        exact Or.inr (ih h)

theorem exists_mem_updateFirst (p : α → Bool) (f : α → α) (l : List α)
    (x : α) (hx : x ∈ l) :
    ∃ y, y ∈ updateFirst p f l ∧ (y = x ∨ (p x = true ∧ y = f x)) := by
  induction l with
  | nil => cases hx
  | cons z zs ih =>
    unfold updateFirst
    by_cases hz : p z
    · rcases List.mem_cons.mp hx with h | h
      · subst h
        exact ⟨f x, by simp [hz], Or.inr ⟨hz, rfl⟩⟩
      · exact ⟨x, by simp [hz, h], Or.inl rfl⟩
    · rcases List.mem_cons.mp hx with h | h
      · subst h
        exact ⟨x, by simp [hz], Or.inl rfl⟩
      · rcases ih h with ⟨y, hy, hor⟩
        exact ⟨y, by simp [hz, List.mem_cons]; exact Or.inr hy, hor⟩

theorem mem_updateFirst_src (p : α → Bool) (f : α → α) (l : List α)
    (y : α) (hy : y ∈ updateFirst p f l) :
    y ∈ l ∨ ∃ x, x ∈ l ∧ y = f x := by
  induction l with
  | nil => cases hy
  | cons z zs ih =>
    unfold updateFirst at hy
    by_cases hz : p z
    · simp only [hz, if_true, List.mem_cons] at hy
      rcases hy with h | h
      · exact Or.inr ⟨z, List.mem_cons_self z zs, h⟩
      · exact Or.inl (List.mem_cons_of_mem z h)
    · simp only [hz, Bool.false_eq_true, if_false, List.mem_cons] at hy
      rcases hy with h | h
      · exact Or.inl (h ▸ List.mem_cons_self z zs)
      · rcases ih h with h' | ⟨x, hx, hfx⟩
        · exact Or.inl (List.mem_cons_of_mem z h')
        · exact Or.inr ⟨x, List.mem_cons_of_mem z hx, hfx⟩

theorem length_updateFirst (p : α → Bool) (f : α → α) (l : List α) :
    (updateFirst p f l).length = l.length := by
  induction l with
  | nil => rfl
  | cons x xs ih =>
    unfold updateFirst
    by_cases hp : p x <;> simp [hp, ih]

-- --- Sample data (used by the concrete witness instances) ---

/-- A regular user with a filled profile. -/
def alice : User :=
  ⟨1, "alice@example.com", hash_password "pw123", some "Alice", some "111",
   some "Minsk", false⟩

/-- A second regular user with an empty profile. -/
def bob : User :=
  ⟨2, "bob@example.com", hash_password "pw456", Option.none, Option.none,
   Option.none, false⟩

/-- An administrator. -/
def adminU : User :=
  ⟨3, "admin@example.com", hash_password "admin", Option.none, Option.none,
   Option.none, true⟩

/-- A train out of Moscow. -/
def trainMoscow : Train := ⟨1, "Moscow", "Minsk", "2025-01-01T10:00", 100⟩

/-- A train out of Gomel. -/
def trainGomel : Train := ⟨2, "Gomel", "Brest", "2025-01-02T12:00", 50⟩

/-- An unpaid order of alice's. -/
def orderUnpaid : Order := ⟨1, 1, 1, "Alice", 30, false⟩

/-- A paid order of alice's. -/
def orderPaid : Order := ⟨2, 1, 2, "Alice", 30, true⟩

/-- A small populated database. -/
def sampleDB : DB :=
  ⟨[alice, bob, adminU], [trainMoscow, trainGomel], [orderUnpaid, orderPaid],
   [], [], [], 4, 3, 3, 1, 1⟩

/-- A token issued for alice at time 0. -/
def tokAlice : JwtToken := create_access_token ⟨some alice.id⟩ Option.none 0

/-- A well-signed token whose embedded user id matches no user. -/
def tokGhost : JwtToken := .signed ⟨⟨some 99⟩, 1000⟩ JWT_SECRET

-- --- C1: pay endpoint ---

/-- Unfolding equation for `pay_order` once the owned order has been found. -/
theorem pay_order_found (order_id : Nat) (user : User) (db : DB) (o : Order)
    (ho : db.orders.find? (fun x => x.id == order_id && x.user_id == user.id) = some o) :
    pay_order order_id user db =
      if o.paid then Except.ok (db, ⟨"Order already paid", Option.none⟩)
      else
        Except.ok
          ({ db with orders := updateFirst (fun x => x.id == order_id && x.user_id == user.id) (fun x => { x with paid := true }) db.orders },
           ⟨"Payment successful", some o.id⟩) := by
  unfold pay_order
  rw [ho]

/-- C1: `pay(orderId, actingUser)` fails with 404 when no order with that id
is owned by the acting user; returns a success message with the state
untouched when the order is already paid; otherwise flips exactly that
order's `paid` flag to true (other rows untouched, no row added or removed);
and a second `pay` on the same order returns success and leaves the state
exactly as after the first call. -/
theorem pay_order_spec (order_id : Nat) (user : User) (db : DB) :
    (db.orders.find? (fun o => o.id == order_id && o.user_id == user.id) = Option.none →
      pay_order order_id user db = .error ⟨404, "Order not found"⟩) ∧
    (∀ o, db.orders.find? (fun o => o.id == order_id && o.user_id == user.id) = some o →
      o.paid = true →
      pay_order order_id user db = .ok (db, ⟨"Order already paid", Option.none⟩)) ∧
    (∀ o, db.orders.find? (fun o => o.id == order_id && o.user_id == user.id) = some o →
      o.paid = false →
      ∃ db', pay_order order_id user db = .ok (db', ⟨"Payment successful", some o.id⟩) ∧
        db'.orders.find? (fun o => o.id == order_id && o.user_id == user.id) =
          some { o with paid := true } ∧
        (∀ x ∈ db.orders, (x.id == order_id && x.user_id == user.id) = false →
          x ∈ db'.orders) ∧
        db'.orders.length = db.orders.length) ∧
    (∀ db' r, pay_order order_id user db = .ok (db', r) →
      pay_order order_id user db' = .ok (db', ⟨"Order already paid", Option.none⟩)) := by
  have hpres : ∀ x : Order, (x.id == order_id && x.user_id == user.id) = true →
      (((fun x : Order => { x with paid := true }) x).id == order_id &&
        ((fun x : Order => { x with paid := true }) x).user_id == user.id) = true :=
    fun x hx => hx
  refine ⟨?_, ?_, ?_, ?_⟩
  · intro h
    unfold pay_order
    rw [h]
  · intro o ho hp
    rw [pay_order_found order_id user db o ho]
    simp [hp]
  · intro o ho hp
    rw [pay_order_found order_id user db o ho, if_neg (by simp [hp])]
    refine ⟨_, rfl, ?_, ?_, ?_⟩
    · show List.find? (fun x => x.id == order_id && x.user_id == user.id)
        (updateFirst (fun x => x.id == order_id && x.user_id == user.id)
          (fun x => { x with paid := true }) db.orders) = some { o with paid := true }
      rw [find?_updateFirst (fun x => x.id == order_id && x.user_id == user.id)
        (fun x => { x with paid := true }) db.orders hpres, ho]
      rfl
    · intro x hx hpx
      exact mem_updateFirst_of_neg _ _ _ _ hx hpx
    · exact length_updateFirst _ _ _
  · intro db' r h
    cases ho : db.orders.find? (fun o => o.id == order_id && o.user_id == user.id) with
    | none =>
      unfold pay_order at h
      rw [ho] at h
      exact Except.noConfusion h
    | some o =>
      rw [pay_order_found order_id user db o ho] at h
      by_cases hp : o.paid
      · rw [if_pos hp] at h
        simp only [Except.ok.injEq, Prod.mk.injEq] at h
        obtain ⟨hdb, _⟩ := h
        subst hdb
        rw [pay_order_found order_id user db o ho]
        simp [hp]
      · rw [if_neg hp] at h
        simp only [Except.ok.injEq, Prod.mk.injEq] at h
        obtain ⟨hdb, _⟩ := h
        subst hdb
        have hfind :
            ({ db with orders := updateFirst (fun x => x.id == order_id && x.user_id == user.id) (fun x => { x with paid := true }) db.orders } : DB).orders.find?
              (fun x => x.id == order_id && x.user_id == user.id) =
              some { o with paid := true } := by
          show List.find? (fun x => x.id == order_id && x.user_id == user.id)
            (updateFirst (fun x => x.id == order_id && x.user_id == user.id)
              (fun x => { x with paid := true }) db.orders) = some { o with paid := true }
          rw [find?_updateFirst (fun x => x.id == order_id && x.user_id == user.id)
            (fun x => { x with paid := true }) db.orders hpres, ho]
          rfl
        rw [pay_order_found order_id user _ _ hfind]
        simp

/-- C1 witness: in the sample database, paying alice's already-paid order
returns the no-op success and the unchanged state. -/
theorem pay_order_spec_witness :
    sampleDB.orders.find? (fun o => o.id == 2 && o.user_id == alice.id) =
      some orderPaid ∧
    pay_order 2 alice sampleDB = .ok (sampleDB, ⟨"Order already paid", Option.none⟩) :=
  ⟨by decide, (pay_order_spec 2 alice sampleDB).2.1 orderPaid (by decide) (by decide)⟩

-- --- C7: login ---

/-- C7: `login` fails with 404 when no user has the given email, with 401
when the password check against the stored hash fails, and otherwise returns
a signed token (issued for the user's id) together with that id. -/
theorem login_spec (data : LoginSchema) (db : DB) (now : Nat) :
    (db.users.find? (fun u => u.email == data.email) = Option.none →
      login data db now = .error ⟨404, "Пользователь не найден"⟩) ∧
    (∀ u, db.users.find? (fun u => u.email == data.email) = some u →
      verify_password data.password u.hashed_password = false →
      login data db now = .error ⟨401, "Неправильный логин или пароль"⟩) ∧
    (∀ u, db.users.find? (fun u => u.email == data.email) = some u →
      verify_password data.password u.hashed_password = true →
      login data db now = .ok ⟨create_access_token ⟨some u.id⟩ Option.none now, u.id⟩) := by
  refine ⟨?_, ?_, ?_⟩
  · intro h
    unfold login
    rw [h]
  · intro u hu hv
    unfold login
    rw [hu]
    simp [hv]
  · intro u hu hv
    unfold login
    rw [hu]
    simp [hv]

/-- C7 witness: wrong password gives 401, unknown email gives 404, correct
credentials give a token for alice's id. -/
theorem login_spec_witness :
    login ⟨"alice@example.com", "wrong"⟩ sampleDB 0 =
      .error ⟨401, "Неправильный логин или пароль"⟩ ∧
    login ⟨"nobody@example.com", "pw123"⟩ sampleDB 0 =
      .error ⟨404, "Пользователь не найден"⟩ ∧
    login ⟨"alice@example.com", "pw123"⟩ sampleDB 0 =
      .ok ⟨create_access_token ⟨some 1⟩ Option.none 0, 1⟩ :=
  ⟨(login_spec ⟨"alice@example.com", "wrong"⟩ sampleDB 0).2.1 alice (by decide) (by decide),
   (login_spec ⟨"nobody@example.com", "pw123"⟩ sampleDB 0).1 (by decide),
   (login_spec ⟨"alice@example.com", "pw123"⟩ sampleDB 0).2.2 alice (by decide) (by decide)⟩

-- --- C10: all-empty profile update is accepted and is a no-op ---

/-- C10: a profile update whose three fields are all present but equal to the
empty string is not rejected: the handler returns the 200 success message and
the database — in particular every stored profile field of every user — is
left unchanged, because the 400 branch fires only when all three fields are
absent and an empty string never overwrites a stored value. -/
theorem update_profile_empty_strings_noop (user : User) (db : DB) :
    update_profile ⟨some "", some "", some ""⟩ user db = .ok (db, "Profile updated") := by
  unfold update_profile
  rw [if_neg (by simp)]
  rw [updateFirst_congr_id (fun u : User => u.id == user.id)
    (applyProfile ⟨some "", some "", some ""⟩) db.users (fun x => rfl)]

-- --- C2: profile update (corrected) ---

/-- C2 counterexample: the claim says the update fails with 400 when all
three fields are "absent/empty"; but with all three present and empty the
code returns the 200 success (and changes nothing), so the "empty" half of
the iff is false. -/
theorem update_profile_claim_counterexample :
    update_profile ⟨some "", some "", some ""⟩ alice sampleDB =
      .ok (sampleDB, "Profile updated") ∧
    ¬ update_profile ⟨some "", some "", some ""⟩ alice sampleDB =
      .error ⟨400, "Invalid input data"⟩ := by
  constructor
  · rfl
  · intro h
    exact Except.noConfusion h

/-- C2 (amended): the update fails with 400 iff all three fields are absent
(`None`); an all-empty-strings request is accepted as a no-op.  Otherwise
every provided non-empty field overwrites the corresponding stored field of
the acting user's row and every empty or absent field leaves the stored value
unchanged (so updating with only `city` leaves `name`/`phone` unchanged);
other rows and the remaining columns are untouched. -/
theorem update_profile_spec (profile : ProfileSchema) (user : User) (db : DB) :
    (update_profile profile user db = .error ⟨400, "Invalid input data"⟩ ↔
      profile.name = Option.none ∧ profile.phone = Option.none ∧
        profile.city = Option.none) ∧
    (∀ w, db.users.find? (fun u => u.id == user.id) = some w →
      ¬(profile.name = Option.none ∧ profile.phone = Option.none ∧
          profile.city = Option.none) →
      ∃ db' w', update_profile profile user db = .ok (db', "Profile updated") ∧
        db'.users.find? (fun u => u.id == user.id) = some w' ∧
        w'.id = w.id ∧ w'.email = w.email ∧
        w'.hashed_password = w.hashed_password ∧ w'.is_admin = w.is_admin ∧
        (∀ s, profile.name = some s → s ≠ "" → w'.name = some s) ∧
        ((profile.name = Option.none ∨ profile.name = some "") → w'.name = w.name) ∧
        (∀ s, profile.phone = some s → s ≠ "" → w'.phone = some s) ∧
        ((profile.phone = Option.none ∨ profile.phone = some "") → w'.phone = w.phone) ∧
        (∀ s, profile.city = some s → s ≠ "" → w'.city = some s) ∧
        ((profile.city = Option.none ∨ profile.city = some "") → w'.city = w.city) ∧
        (∀ x ∈ db.users, (x.id == user.id) = false → x ∈ db'.users)) := by
  constructor
  · by_cases hc : profile.name = Option.none ∧ profile.phone = Option.none ∧
        profile.city = Option.none
    · unfold update_profile
      rw [if_pos hc]
      simp [hc]
    · unfold update_profile
      rw [if_neg hc]
      constructor
      · intro h
        exact Except.noConfusion h
      · intro h
        exact absurd h hc
  · intro w hw hnc
    unfold update_profile
    rw [if_neg hnc]
    have hfind : List.find? (fun u => u.id == user.id)
        (updateFirst (fun u => u.id == user.id) (applyProfile profile) db.users) =
        some (applyProfile profile w) := by
      rw [find?_updateFirst (fun u : User => u.id == user.id)
        (applyProfile profile) db.users (fun x hx => hx), hw]
      rfl
    refine ⟨_, applyProfile profile w, rfl, hfind, rfl, rfl, rfl, rfl,
      ?_, ?_, ?_, ?_, ?_, ?_, ?_⟩
    · intro s hs hne
      show pyOr profile.name w.name = some s
      rw [hs]
      simp [pyOr, strTruthy, hne]
    · intro h
      show pyOr profile.name w.name = w.name
      rcases h with h | h <;> rw [h] <;> simp [pyOr, strTruthy]
    · intro s hs hne
      show pyOr profile.phone w.phone = some s
      rw [hs]
      simp [pyOr, strTruthy, hne]
    · intro h
      show pyOr profile.phone w.phone = w.phone
      rcases h with h | h <;> rw [h] <;> simp [pyOr, strTruthy]
    · intro s hs hne
      show pyOr profile.city w.city = some s
      rw [hs]
      simp [pyOr, strTruthy, hne]
    · intro h
      show pyOr profile.city w.city = w.city
      rcases h with h | h <;> rw [h] <;> simp [pyOr, strTruthy]
    · intro x hx hpx
      exact mem_updateFirst_of_neg _ _ _ _ hx hpx

/-- C2 witness: a city-only update of alice's profile succeeds, sets the
city, and leaves name and phone (and email) as they were. -/
theorem update_profile_spec_witness :
    sampleDB.users.find? (fun u => u.id == alice.id) = some alice ∧
    ∃ db' w', update_profile ⟨Option.none, Option.none, some "Gomel"⟩ alice sampleDB =
        .ok (db', "Profile updated") ∧
      db'.users.find? (fun u => u.id == alice.id) = some w' ∧
      w'.city = some "Gomel" ∧ w'.name = alice.name ∧ w'.phone = alice.phone ∧
      w'.email = alice.email := by
  have hfind : sampleDB.users.find? (fun u => u.id == alice.id) = some alice := by decide
  refine ⟨hfind, ?_⟩
  obtain ⟨db', w', h1, h2, _, hemail, _, _, _, hname, _, hphone, hcity, _, _⟩ :=
    (update_profile_spec ⟨Option.none, Option.none, some "Gomel"⟩ alice sampleDB).2
      alice hfind (by simp)
  exact ⟨db', w', h1, h2, hcity "Gomel" rfl (by decide), hname (Or.inl rfl),
    hphone (Or.inl rfl), hemail⟩

-- --- C3: authentication middleware ---

/-- C3: a missing `Authorization` header, a header without the `Bearer `
prefix, and an invalid or expired token each fail with status 401; a token
that verifies but whose embedded user id matches no user fails with 404; the
admin variant rejects a resolved non-admin user with 403; on success the
resolved user record is handed to the handler. -/
theorem auth_spec (db : DB) (now : Nat) :
    (get_current_user Option.none db now = .error ⟨401, "Not authenticated"⟩) ∧
    (∀ s, get_current_user (some (.malformed s)) db now =
      .error ⟨401, "Invalid auth header"⟩) ∧
    (∀ tok e, jwtDecode tok JWT_SECRET now = .error e →
      ∃ msg, get_current_user (some (.bearer tok)) db now = .error ⟨401, msg⟩) ∧
    (∀ tok payload, jwtDecode tok JWT_SECRET now = .ok payload →
      db.users.find? (fun u => some u.id == payload.claims.user_id) = Option.none →
      get_current_user (some (.bearer tok)) db now = .error ⟨404, "User not found"⟩) ∧
    (∀ tok payload u, jwtDecode tok JWT_SECRET now = .ok payload →
      db.users.find? (fun u => some u.id == payload.claims.user_id) = some u →
      get_current_user (some (.bearer tok)) db now = .ok u) ∧
    (∀ auth u, get_current_user auth db now = .ok u → u.is_admin = false →
      require_admin auth db now = .error ⟨403, "Admin privileges required"⟩) ∧
    (∀ auth u, get_current_user auth db now = .ok u → u.is_admin = true →
      require_admin auth db now = .ok u) := by
  refine ⟨rfl, fun s => rfl, ?_, ?_, ?_, ?_, ?_⟩
  · intro tok e he
    cases e with
    | expired =>
      refine ⟨"Token expired", ?_⟩
      simp only [get_current_user, he]
    | invalid =>
      refine ⟨"Invalid token", ?_⟩
      simp only [get_current_user, he]
  · intro tok payload hd hf
    simp only [get_current_user, hd, hf]
  · intro tok payload u hd hf
    simp only [get_current_user, hd, hf]
  · intro auth u hu hadm
    simp only [require_admin, hu, hadm]
    rfl
  · intro auth u hu hadm
    simp only [require_admin, hu, hadm]
    rfl

/-- C3 witness: on the sample database at time 0 — missing header is 401, a
well-signed token for a non-existent user id is 404, and alice (not an
admin) is rejected by the admin variant with 403. -/
theorem auth_spec_witness :
    get_current_user Option.none sampleDB 0 = .error ⟨401, "Not authenticated"⟩ ∧
    get_current_user (some (.bearer tokGhost)) sampleDB 0 = .error ⟨404, "User not found"⟩ ∧
    require_admin (some (.bearer tokAlice)) sampleDB 0 =
      .error ⟨403, "Admin privileges required"⟩ ∧
    get_current_user (some (.bearer (.garbage "xyz"))) sampleDB 0 =
      .error ⟨401, "Invalid token"⟩ :=
  ⟨(auth_spec sampleDB 0).1,
   (auth_spec sampleDB 0).2.2.2.1 tokGhost ⟨⟨some 99⟩, 1000⟩ rfl rfl,
   (auth_spec sampleDB 0).2.2.2.2.2.1 (some (.bearer tokAlice)) alice rfl rfl,
   rfl⟩

-- --- C5: token issue / verify round-trip ---

/-- C5: a token issued by `create_access_token` for an existing user id,
presented within its validity window under the same static secret, decodes
to the same embedded user id, and `get_current_user` resolves it to the very
user it was issued for. -/
theorem token_roundtrip (u : User) (db : DB) (now now' : Nat)
    (hu : db.users.find? (fun x => some x.id == some u.id) = some u)
    (hv : now' < now + ACCESS_TOKEN_EXPIRE_MINUTES) :
    jwtDecode (create_access_token ⟨some u.id⟩ Option.none now) JWT_SECRET now' =
      .ok ⟨⟨some u.id⟩, now + ACCESS_TOKEN_EXPIRE_MINUTES⟩ ∧
    get_current_user (some (.bearer (create_access_token ⟨some u.id⟩ Option.none now)))
      db now' = .ok u := by
  have hd : jwtDecode (create_access_token ⟨some u.id⟩ Option.none now) JWT_SECRET now' =
      .ok ⟨⟨some u.id⟩, now + ACCESS_TOKEN_EXPIRE_MINUTES⟩ := by
    simp only [create_access_token, jwtDecode]
    rw [if_neg (by simp), if_neg (by omega)]
  refine ⟨hd, ?_⟩
  simp only [get_current_user, hd, hu]

/-- C5 witness: alice's token issued at time 0 still resolves to alice at
time 100. -/
theorem token_roundtrip_witness :
    jwtDecode (create_access_token ⟨some alice.id⟩ Option.none 0) JWT_SECRET 100 =
      .ok ⟨⟨some alice.id⟩, 0 + ACCESS_TOKEN_EXPIRE_MINUTES⟩ ∧
    get_current_user (some (.bearer (create_access_token ⟨some alice.id⟩ Option.none 0)))
      sampleDB 100 = .ok alice :=
  token_roundtrip alice sampleDB 0 100 (by decide) (by decide)

-- --- C8: train search ---

/-- Membership in one of the handler's conditional `ilike` filters. -/
theorem mem_condFilter (b : Bool) (p : Train → Bool) (l : List Train) (t : Train) :
    (t ∈ if b then l.filter p else l) ↔ (t ∈ l ∧ (b = true → p t = true)) := by
  cases b
  · simp
  · simp [List.mem_filter]

/-- Membership in `search_trains`, phrased through the code's own truthiness
tests. -/
theorem mem_search (from_ to_ : Option String) (db : DB) (v : TrainView) :
    v ∈ search_trains from_ to_ db ↔
      ∃ t, t ∈ db.trains ∧ t.view = v ∧
        (strTruthy from_ = true → ilikeContains t.from_city (from_.getD "") = true) ∧
        (strTruthy to_ = true → ilikeContains t.to_city (to_.getD "") = true) := by
  simp only [search_trains, List.mem_map, mem_condFilter]
  constructor
  · rintro ⟨a, ⟨⟨ht, hfc⟩, hsc⟩, hv⟩
    exact ⟨a, ht, hv, hfc, hsc⟩
  · rintro ⟨t, ht, hv, hfc, hsc⟩
    exact ⟨t, ⟨⟨ht, hfc⟩, hsc⟩, hv⟩

/-- The handler's truthiness condition on one optional filter is equivalent
to the claim's "applied only when provided" reading (an empty-string filter
is skipped by the code, but an empty pattern matches every string anyway). -/
theorem filter_cond_iff (o : Option String) (col : String) :
    (strTruthy o = true → ilikeContains col (o.getD "") = true) ↔
      (∀ s, o = some s → ilikeContains col s = true) := by
  cases o with
  | none => simp [strTruthy]
  | some s =>
    by_cases hs : s = ""
    · subst hs
      simp [strTruthy, ilikeContains_empty]
    · simp [strTruthy, hs]

/-- C8: the search returns exactly the trains whose origin contains the
`from` value case-insensitively and whose destination contains the `to`
value case-insensitively, each filter applied only when provided, with AND
semantics; with no filters it returns all trains (no pagination). -/
theorem search_trains_spec (from_ to_ : Option String) (db : DB) :
    (∀ v, v ∈ search_trains from_ to_ db ↔
      ∃ t, t ∈ db.trains ∧ t.view = v ∧
        (∀ f, from_ = some f → ilikeContains t.from_city f = true) ∧
        (∀ s, to_ = some s → ilikeContains t.to_city s = true)) ∧
    search_trains Option.none Option.none db = db.trains.map Train.view := by
  constructor
  · intro v
    rw [mem_search]
    exact exists_congr fun t =>
      and_congr_right fun _ => and_congr_right fun _ =>
        and_congr (filter_cond_iff from_ t.from_city) (filter_cond_iff to_ t.to_city)
  · rfl

/-- C8 witness: filtering on `from=mos` finds the Moscow train and not the
Gomel one; no filters returns both trains. -/
theorem search_trains_spec_witness :
    trainMoscow.view ∈ search_trains (some "mos") Option.none sampleDB ∧
    ¬ trainGomel.view ∈ search_trains (some "mos") Option.none sampleDB ∧
    search_trains Option.none Option.none sampleDB =
      [trainMoscow.view, trainGomel.view] := by
  refine ⟨?_, ?_, rfl⟩
  · refine ((search_trains_spec (some "mos") Option.none sampleDB).1 trainMoscow.view).mpr
      ⟨trainMoscow, by decide, rfl, ?_, ?_⟩
    · intro f hf
      cases hf
      decide
    · intro s hs
      exact Option.noConfusion hs
  · intro hmem
    obtain ⟨t, ht, hv, hfc, _⟩ :=
      ((search_trains_spec (some "mos") Option.none sampleDB).1 trainGomel.view).mp hmem
    have ht' : t = trainMoscow ∨ t = trainGomel ∨ t ∈ ([] : List Train) := by
      simpa [sampleDB, List.mem_cons] using ht
    rcases ht' with h | h | h
    · subst h
      exact absurd hv (by decide)
    · subst h
      exact absurd (hfc "mos" rfl) (by decide)
    · cases h

-- --- C4: order creation and listing ---

/-- C4: order creation 400s when `trainId` or `passenger` is missing, 404s
when the train does not exist, and otherwise appends an order owned by the
acting user with `paid = false`; the listing endpoint returns exactly the
acting user's orders, so the fresh order is retrievable by its creator and
never appears in a different user's listing. -/
theorem create_order_spec (payload : OrderCreateSchema) (user : User) (db : DB) :
    (payload.trainId = Option.none ∨ payload.passenger = Option.none →
      create_order payload user db = .error ⟨400, "trainId and passenger are required"⟩) ∧
    (natTruthy payload.trainId = true → payload.passenger.isSome = true →
      db.trains.find? (fun t => some t.id == payload.trainId) = Option.none →
      create_order payload user db = .error ⟨404, "Train not found"⟩) ∧
    (∀ tr p, natTruthy payload.trainId = true → payload.passenger = some p →
      db.trains.find? (fun t => some t.id == payload.trainId) = some tr →
      (∀ x ∈ db.orders, x.id ≠ db.nextOrderId) →
      ∃ db' o, create_order payload user db =
          .ok (db', ⟨"Ticket booked", o.id, o.train_id, o.paid⟩) ∧
        o.user_id = user.id ∧ o.train_id = tr.id ∧ o.paid = false ∧
        o.passenger_name = p.name ∧ o.passenger_age = p.age ∧
        db'.orders = db.orders ++ [o] ∧
        (⟨o.id, o.train_id, o.paid, o.passenger_name, o.passenger_age⟩ : OrderView) ∈
          get_orders user db' ∧
        (∀ user2 : User, user2.id ≠ user.id →
          (⟨o.id, o.train_id, o.paid, o.passenger_name, o.passenger_age⟩ : OrderView) ∉
            get_orders user2 db')) ∧
    (∀ (u : User) (v : OrderView), v ∈ get_orders u db ↔
      ∃ o, o ∈ db.orders ∧ o.user_id = u.id ∧
        v = ⟨o.id, o.train_id, o.paid, o.passenger_name, o.passenger_age⟩) := by
  refine ⟨?_, ?_, ?_, ?_⟩
  · intro h
    rcases h with h | h
    · simp [create_order, h, natTruthy]
    · simp [create_order, h]
  · intro hT hP hF
    obtain ⟨p, hp⟩ := Option.isSome_iff_exists.mp hP
    simp [create_order, hT, hp, hF]
  · intro tr p hT hp hF hfresh
    refine ⟨{ db with orders := db.orders ++ [⟨db.nextOrderId, user.id, tr.id, p.name, p.age, false⟩], nextOrderId := db.nextOrderId + 1 },
      ⟨db.nextOrderId, user.id, tr.id, p.name, p.age, false⟩, ?_, rfl, rfl, rfl, rfl, rfl, rfl, ?_, ?_⟩
    · simp [create_order, hT, hp, hF]
    · refine List.mem_map.mpr ⟨⟨db.nextOrderId, user.id, tr.id, p.name, p.age, false⟩,
        List.mem_filter.mpr ⟨?_, by simp⟩, rfl⟩
      simp
    · intro user2 hne hmem
      obtain ⟨x, hx, hvx⟩ := List.mem_map.mp hmem
      obtain ⟨hx1, hx2⟩ := List.mem_filter.mp hx
      have hxu : x.user_id = user2.id := by simpa using hx2
      have hxid : x.id = db.nextOrderId := by
        have := congrArg OrderView.id hvx
        simpa using this
      rcases List.mem_append.mp hx1 with h | h
      · exact hfresh x h hxid
      · have hxo : x = ⟨db.nextOrderId, user.id, tr.id, p.name, p.age, false⟩ := by
          simpa using h
        apply hne
        rw [← hxu, hxo]
  · intro u v
    constructor
    · intro hmem
      obtain ⟨x, hx, hvx⟩ := List.mem_map.mp hmem
      obtain ⟨hx1, hx2⟩ := List.mem_filter.mp hx
      exact ⟨x, hx1, by simpa using hx2, hvx.symm⟩
    · rintro ⟨o, ho, huid, hv⟩
      exact List.mem_map.mpr ⟨o, List.mem_filter.mpr ⟨ho, by simp [huid]⟩, hv.symm⟩

/-- C4 witness: creating an order for a non-existent train 404s; a missing
`trainId` 400s; and alice's existing order shows up in her listing. -/
theorem create_order_spec_witness :
    create_order ⟨some 9, some ⟨"Bob", 25⟩⟩ bob sampleDB = .error ⟨404, "Train not found"⟩ ∧
    create_order ⟨Option.none, some ⟨"Bob", 25⟩⟩ bob sampleDB =
      .error ⟨400, "trainId and passenger are required"⟩ ∧
    (⟨1, 1, false, "Alice", 30⟩ : OrderView) ∈ get_orders alice sampleDB :=
  ⟨(create_order_spec ⟨some 9, some ⟨"Bob", 25⟩⟩ bob sampleDB).2.1 rfl rfl rfl,
   (create_order_spec ⟨Option.none, some ⟨"Bob", 25⟩⟩ bob sampleDB).1 (Or.inl rfl),
   ((create_order_spec ⟨some 1, some ⟨"Bob", 25⟩⟩ bob sampleDB).2.2.2 alice
     ⟨1, 1, false, "Alice", 30⟩).mpr ⟨orderUnpaid, by decide, rfl, rfl⟩⟩

-- --- C6: admin flight update ---

theorem applyStringFields_id (p : List (String × PyVal)) (t : Train) :
    (applyStringFields p t).id = t.id := by
  unfold applyStringFields
  cases p.lookup "time" <;> cases p.lookup "from_city" <;>
    cases p.lookup "to_city" <;> rfl

theorem applyStringFields_price (p : List (String × PyVal)) (t : Train) :
    (applyStringFields p t).price = t.price := by
  unfold applyStringFields
  cases p.lookup "time" <;> cases p.lookup "from_city" <;>
    cases p.lookup "to_city" <;> rfl

theorem applyStringFields_time (p : List (String × PyVal)) (t : Train) :
    (applyStringFields p t).time =
      match p.lookup "time" with
      | Option.none => t.time
      | some v => pyToStr v := by
  unfold applyStringFields
  cases p.lookup "time" <;> cases p.lookup "from_city" <;>
    cases p.lookup "to_city" <;> rfl

theorem applyStringFields_from (p : List (String × PyVal)) (t : Train) :
    (applyStringFields p t).from_city =
      match p.lookup "from_city" with
      | Option.none => t.from_city
      | some v => pyToStr v := by
  unfold applyStringFields
  cases p.lookup "time" <;> cases p.lookup "from_city" <;>
    cases p.lookup "to_city" <;> rfl

theorem applyStringFields_to (p : List (String × PyVal)) (t : Train) :
    (applyStringFields p t).to_city =
      match p.lookup "to_city" with
      | Option.none => t.to_city
      | some v => pyToStr v := by
  unfold applyStringFields
  cases p.lookup "time" <;> cases p.lookup "from_city" <;>
    cases p.lookup "to_city" <;> rfl

/-- C6: the admin flight update 404s when the train is absent; a present but
non-coercible price 400s with the row left entirely unchanged (the error is
raised before any write and nothing is committed, so the state is the old
one); otherwise each present field among price/time/from_city/to_city is
applied — price as a float, the others string-coerced — to that one row in a
single committed mutation (other rows untouched). -/
theorem admin_update_flight_spec (flight_id : Nat)
    (payload : List (String × PyVal)) (db : DB) :
    (db.trains.find? (fun t => t.id == flight_id) = Option.none →
      admin_update_flight flight_id payload db = .error ⟨404, "Train not found"⟩) ∧
    (∀ t v, db.trains.find? (fun t => t.id == flight_id) = some t →
      payload.lookup "price" = some v → pyToFloat v = Option.none →
      admin_update_flight flight_id payload db = .error ⟨400, "Invalid price"⟩) ∧
    (∀ t, db.trains.find? (fun t => t.id == flight_id) = some t →
      (∀ v, payload.lookup "price" = some v → (pyToFloat v).isSome = true) →
      ∃ db' t', admin_update_flight flight_id payload db = .ok (db', t.id) ∧
        db'.trains.find? (fun x => x.id == flight_id) = some t' ∧
        t'.id = t.id ∧
        (payload.lookup "price" = Option.none → t'.price = t.price) ∧
        (∀ v q, payload.lookup "price" = some v → pyToFloat v = some q →
          t'.price = q) ∧
        (payload.lookup "time" = Option.none → t'.time = t.time) ∧
        (∀ v, payload.lookup "time" = some v → t'.time = pyToStr v) ∧
        (payload.lookup "from_city" = Option.none → t'.from_city = t.from_city) ∧
        (∀ v, payload.lookup "from_city" = some v → t'.from_city = pyToStr v) ∧
        (payload.lookup "to_city" = Option.none → t'.to_city = t.to_city) ∧
        (∀ v, payload.lookup "to_city" = some v → t'.to_city = pyToStr v) ∧
        (∀ x ∈ db.trains, (x.id == flight_id) = false → x ∈ db'.trains) ∧
        db'.trains.length = db.trains.length) := by
  refine ⟨?_, ?_, ?_⟩
  · intro h
    simp [admin_update_flight, h]
  · intro t v ht hv hpf
    simp [admin_update_flight, ht, hv, hpf]
  · intro t ht hpok
    have hpt' := List.find?_some ht
    have hpt : (t.id == flight_id) = true := hpt'
    cases hv : payload.lookup "price" with
    | none =>
      have hpres : ∀ x : Train, (x.id == flight_id) = true →
          (((fun _ : Train => applyStringFields payload t) x).id == flight_id) = true := by
        intro x _
        rw [applyStringFields_id]
        exact hpt
      refine ⟨{ db with trains := updateFirst (fun x => x.id == flight_id) (fun _ => applyStringFields payload t) db.trains },
        applyStringFields payload t, ?_, ?_, applyStringFields_id payload t, ?_, ?_,
        ?_, ?_, ?_, ?_, ?_, ?_, ?_, ?_⟩
      · simp [admin_update_flight, ht, hv]
      · show List.find? (fun x => x.id == flight_id)
          (updateFirst (fun x => x.id == flight_id)
            (fun _ => applyStringFields payload t) db.trains) =
          some (applyStringFields payload t)
        rw [find?_updateFirst (fun x => x.id == flight_id)
          (fun _ => applyStringFields payload t) db.trains hpres, ht]
        rfl
      · intro _
        exact applyStringFields_price payload t
      · intro v q hv' _
        exact Option.noConfusion hv'
      · intro h
        rw [applyStringFields_time, h]
      · intro v h
        rw [applyStringFields_time, h]
      · intro h
        rw [applyStringFields_from, h]
      · intro v h
        rw [applyStringFields_from, h]
      · intro h
        rw [applyStringFields_to, h]
      · intro v h
        rw [applyStringFields_to, h]
      · intro x hx hpx
        exact mem_updateFirst_of_neg _ _ _ _ hx hpx
      · exact length_updateFirst _ _ _
    | some v =>
      obtain ⟨q, hq⟩ := Option.isSome_iff_exists.mp (hpok v hv)
      have hpres : ∀ x : Train, (x.id == flight_id) = true →
          (((fun _ : Train => applyStringFields payload { t with price := q }) x).id ==
            flight_id) = true := by
        intro x _
        rw [applyStringFields_id]
        exact hpt
      refine ⟨{ db with trains := updateFirst (fun x => x.id == flight_id) (fun _ => applyStringFields payload { t with price := q }) db.trains },
        applyStringFields payload { t with price := q }, ?_, ?_,
        applyStringFields_id payload _, ?_, ?_, ?_, ?_, ?_, ?_, ?_, ?_, ?_, ?_⟩
      · simp [admin_update_flight, ht, hv, hq]
      · show List.find? (fun x => x.id == flight_id)
          (updateFirst (fun x => x.id == flight_id)
            (fun _ => applyStringFields payload { t with price := q }) db.trains) =
          some (applyStringFields payload { t with price := q })
        rw [find?_updateFirst (fun x => x.id == flight_id)
          (fun _ => applyStringFields payload { t with price := q }) db.trains hpres, ht]
        rfl
      · intro h
        exact Option.noConfusion h
      · intro v' q' hv' hq'
        cases hv'
        rw [hq] at hq'
        cases hq'
        rw [applyStringFields_price]
      · intro h
        rw [applyStringFields_time, h]
      · intro v' h
        rw [applyStringFields_time, h]
      · intro h
        rw [applyStringFields_from, h]
      · intro v' h
        rw [applyStringFields_from, h]
      · intro h
        rw [applyStringFields_to, h]
      · intro v' h
        rw [applyStringFields_to, h]
      · intro x hx hpx
        exact mem_updateFirst_of_neg _ _ _ _ hx hpx
      · exact length_updateFirst _ _ _

/-- C6 witness: updating a non-existent flight 404s; updating flight 1 with a
non-numeric price 400s (and, the result being an error, no new state is
produced). -/
theorem admin_update_flight_spec_witness :
    admin_update_flight 9 [] sampleDB = .error ⟨404, "Train not found"⟩ ∧
    admin_update_flight 1 [("price", PyVal.str "abc")] sampleDB =
      .error ⟨400, "Invalid price"⟩ :=
  ⟨(admin_update_flight_spec 9 [] sampleDB).1 rfl,
   (admin_update_flight_spec 1 [("price", PyVal.str "abc")] sampleDB).2.1
     trainMoscow (PyVal.str "abc") rfl rfl rfl⟩

-- --- C9: the paid flag never reverts ---

theorem stateOf_orders_eq (e : Except HTTPError (DB × α)) (db : DB)
    (H : ∀ db' x, e = .ok (db', x) → db'.orders = db.orders) :
    (stateOf e db).orders = db.orders := by
  cases e with
  | error _ => rfl
  | ok pr => exact H pr.1 pr.2 rfl

theorem withUser_orders_eq (auth : Option AuthHeader) (db : DB) (now : Nat)
    (k : User → Except HTTPError (DB × α))
    (H : ∀ u db' x, k u = .ok (db', x) → db'.orders = db.orders) :
    (withUser auth db now k).orders = db.orders := by
  unfold withUser
  cases get_current_user auth db now with
  | error _ => rfl
  | ok u => exact stateOf_orders_eq _ _ (H u)

theorem withAdmin_orders_eq (auth : Option AuthHeader) (db : DB) (now : Nat)
    (e : Except HTTPError (DB × α))
    (H : ∀ db' x, e = .ok (db', x) → db'.orders = db.orders) :
    (withAdmin auth db now e).orders = db.orders := by
  unfold withAdmin
  cases require_admin auth db now with
  | error _ => rfl
  | ok _ => exact stateOf_orders_eq _ _ H

theorem withUser_eq (auth : Option AuthHeader) (db : DB) (now : Nat)
    (k : User → Except HTTPError (DB × α)) :
    withUser auth db now k = db ∨
      ∃ u db' x, k u = .ok (db', x) ∧ withUser auth db now k = db' := by
  cases hu : get_current_user auth db now with
  | error e =>
    refine Or.inl ?_
    unfold withUser
    rw [hu]
  | ok u =>
    cases hk : k u with
    | error e =>
      refine Or.inl ?_
      unfold withUser
      rw [hu]
      show stateOf (k u) db = db
      unfold stateOf
      rw [hk]
    | ok pr =>
      refine Or.inr ⟨u, pr.1, pr.2, by rw [hk], ?_⟩
      unfold withUser
      rw [hu]
      show stateOf (k u) db = pr.1
      unfold stateOf
      rw [hk]

theorem register_ok_orders (d : RegisterSchema) (db db' : DB) (x : Nat)
    (h : register d db = .ok (db', x)) : db'.orders = db.orders := by
  unfold register at h
  split at h
  · exact Except.noConfusion h
  · simp only [Except.ok.injEq, Prod.mk.injEq] at h
    rw [← h.1]

theorem update_profile_ok_orders (p : ProfileSchema) (u : User) (db db' : DB)
    (x : String) (h : update_profile p u db = .ok (db', x)) :
    db'.orders = db.orders := by
  unfold update_profile at h
  split at h
  · exact Except.noConfusion h
  · simp only [Except.ok.injEq, Prod.mk.injEq] at h
    rw [← h.1]

theorem add_passenger_ok_orders (p : PassengerSchema) (u : User) (db db' : DB)
    (x : Nat) (h : add_passenger p u db = .ok (db', x)) :
    db'.orders = db.orders := by
  unfold add_passenger at h
  split at h
  · exact Except.noConfusion h
  · simp only [Except.ok.injEq, Prod.mk.injEq] at h
    rw [← h.1]

theorem create_ticket_ok_orders (payload : List (String × String)) (u : User)
    (db db' : DB) (x : Nat) (h : create_ticket payload u db = .ok (db', x)) :
    db'.orders = db.orders := by
  simp only [create_ticket] at h
  split at h
  · exact Except.noConfusion h
  · simp only [Except.ok.injEq, Prod.mk.injEq] at h
    rw [← h.1]

theorem admin_add_flight_ok_orders (payload : TrainSchema) (db db' : DB)
    (x : Nat) (h : admin_add_flight payload db = .ok (db', x)) :
    db'.orders = db.orders := by
  unfold admin_add_flight at h
  split at h
  · exact Except.noConfusion h
  · simp only [Except.ok.injEq, Prod.mk.injEq] at h
    rw [← h.1]

theorem admin_update_flight_ok_orders (fid : Nat)
    (payload : List (String × PyVal)) (db db' : DB) (x : Nat)
    (h : admin_update_flight fid payload db = .ok (db', x)) :
    db'.orders = db.orders := by
  unfold admin_update_flight at h
  split at h
  · exact Except.noConfusion h
  · split at h
    · simp only [Except.ok.injEq, Prod.mk.injEq] at h
      rw [← h.1]
    · split at h
      · exact Except.noConfusion h
      · simp only [Except.ok.injEq, Prod.mk.injEq] at h
        rw [← h.1]

theorem admin_delete_flight_ok_orders (fid : Nat) (db db' : DB) (x : Nat)
    (h : admin_delete_flight fid db = .ok (db', x)) :
    db'.orders = db.orders := by
  unfold admin_delete_flight at h
  split at h
  · exact Except.noConfusion h
  · simp only [Except.ok.injEq, Prod.mk.injEq] at h
    rw [← h.1]

theorem create_order_ok_orders (payload : OrderCreateSchema) (u : User)
    (db db' : DB) (x : CreateOrderResp)
    (h : create_order payload u db = .ok (db', x)) :
    ∃ o : Order, o.paid = false ∧ db'.orders = db.orders ++ [o] := by
  unfold create_order at h
  split at h
  · exact Except.noConfusion h
  · split at h
    · exact Except.noConfusion h
    · rename_i t heq
      simp only [Except.ok.injEq, Prod.mk.injEq] at h
      exact ⟨⟨db.nextOrderId, u.id, t.id, (payload.passenger.getD ⟨"", 0⟩).name,
        (payload.passenger.getD ⟨"", 0⟩).age, false⟩, rfl, by rw [← h.1]⟩

theorem pay_order_ok_orders (oid : Nat) (u : User) (db db' : DB) (x : PayResp)
    (h : pay_order oid u db = .ok (db', x)) :
    db' = db ∨
      db'.orders = updateFirst (fun o => o.id == oid && o.user_id == u.id)
        (fun o => { o with paid := true }) db.orders := by
  unfold pay_order at h
  split at h
  · exact Except.noConfusion h
  · split at h
    · simp only [Except.ok.injEq, Prod.mk.injEq] at h
      exact Or.inl h.1.symm
    · simp only [Except.ok.injEq, Prod.mk.injEq] at h
      exact Or.inr (by rw [← h.1])

/-- Every request either leaves the orders table alone, appends one unpaid
order, or flips one owned order's `paid` flag to true. -/
theorem handle_orders_shape (r : Request) (now : Nat) (db : DB) :
    (handle r now db).orders = db.orders ∨
    (∃ o : Order, o.paid = false ∧ (handle r now db).orders = db.orders ++ [o]) ∨
    (∃ oid uid, (handle r now db).orders =
      updateFirst (fun o => o.id == oid && o.user_id == uid)
        (fun o => { o with paid := true }) db.orders) := by
  cases r with
  | register d =>
    exact Or.inl (stateOf_orders_eq _ _ (fun db' x h => register_ok_orders d db db' x h))
  | login _ => exact Or.inl rfl
  | searchTrains _ _ => exact Or.inl rfl
  | getTrain _ => exact Or.inl rfl
  | createOrder auth payload =>
    rcases withUser_eq auth db now (fun u => create_order payload u db) with
      h | ⟨u, db', x, hk, heq⟩
    · exact Or.inl (by rw [show handle (.createOrder auth payload) now db = withUser auth db now (fun u => create_order payload u db) from rfl, h])
    · obtain ⟨o, hop, hor⟩ := create_order_ok_orders payload u db db' x hk
      exact Or.inr (Or.inl ⟨o, hop, by rw [show handle (.createOrder auth payload) now db = withUser auth db now (fun u => create_order payload u db) from rfl, heq, hor]⟩)
  | getOrders _ => exact Or.inl rfl
  | payOrder auth oid =>
    rcases withUser_eq auth db now (fun u => pay_order oid u db) with
      h | ⟨u, db', x, hk, heq⟩
    · exact Or.inl (by rw [show handle (.payOrder auth oid) now db = withUser auth db now (fun u => pay_order oid u db) from rfl, h])
    · rcases pay_order_ok_orders oid u db db' x hk with h1 | h1
      · exact Or.inl (by rw [show handle (.payOrder auth oid) now db = withUser auth db now (fun u => pay_order oid u db) from rfl, heq, h1])
      · exact Or.inr (Or.inr ⟨oid, u.id, by rw [show handle (.payOrder auth oid) now db = withUser auth db now (fun u => pay_order oid u db) from rfl, heq, h1]⟩)
  | getProfile _ => exact Or.inl rfl
  | updateProfile auth p =>
    exact Or.inl (withUser_orders_eq _ _ _ _
      (fun u db' x h => update_profile_ok_orders p u db db' x h))
  | listPromotions => exact Or.inl rfl
  | listPassengers _ => exact Or.inl rfl
  | addPassenger auth p =>
    exact Or.inl (withUser_orders_eq _ _ _ _
      (fun u db' x h => add_passenger_ok_orders p u db db' x h))
  | listTickets _ => exact Or.inl rfl
  | createTicket auth payload =>
    exact Or.inl (withUser_orders_eq _ _ _ _
      (fun u db' x h => create_ticket_ok_orders payload u db db' x h))
  | adminListFlights _ => exact Or.inl rfl
  | adminAddFlight auth payload =>
    exact Or.inl (withAdmin_orders_eq _ _ _ _
      (fun db' x h => admin_add_flight_ok_orders payload db db' x h))
  | adminUpdateFlight auth fid payload =>
    exact Or.inl (withAdmin_orders_eq _ _ _ _
      (fun db' x h => admin_update_flight_ok_orders fid payload db db' x h))
  | adminDeleteFlight auth fid =>
    exact Or.inl (withAdmin_orders_eq _ _ _ _
      (fun db' x h => admin_delete_flight_ok_orders fid db db' x h))
  | adminListUsers _ => exact Or.inl rfl

theorem handle_preserves_paid (r : Request) (now : Nat) (db : DB) (o : Order)
    (hmem : o ∈ db.orders) (hp : o.paid = true) :
    ∃ o', o' ∈ (handle r now db).orders ∧ o'.id = o.id ∧
      o'.user_id = o.user_id ∧ o'.paid = true := by
  rcases handle_orders_shape r now db with h | ⟨o2, _, h⟩ | ⟨oid, uid, h⟩
  · exact ⟨o, by rw [h]; exact hmem, rfl, rfl, hp⟩
  · exact ⟨o, by rw [h]; exact List.mem_append_left _ hmem, rfl, rfl, hp⟩
  · rcases exists_mem_updateFirst (fun x => x.id == oid && x.user_id == uid)
      (fun x => { x with paid := true }) db.orders o hmem with ⟨y, hy, hor⟩
    rcases hor with h2 | ⟨_, h2⟩
    · exact ⟨o, by rw [h]; exact h2 ▸ hy, rfl, rfl, hp⟩
    · exact ⟨{ o with paid := true }, by rw [h]; exact h2 ▸ hy, rfl, rfl, rfl⟩

theorem run_preserves_paid (rs : List (Request × Nat)) :
    ∀ (db : DB) (o : Order), o ∈ db.orders → o.paid = true →
      ∃ o', o' ∈ (run rs db).orders ∧ o'.id = o.id ∧
        o'.user_id = o.user_id ∧ o'.paid = true := by
  induction rs with
  | nil => exact fun db o hm hp => ⟨o, hm, rfl, rfl, hp⟩
  | cons rn rest ih =>
    intro db o hm hp
    obtain ⟨r, n⟩ := rn
    obtain ⟨o1, h1, hid1, huid1, hp1⟩ := handle_preserves_paid r n db o hm hp
    obtain ⟨o2, h2, hid2, huid2, hp2⟩ := ih (handle r n db) o1 h1 hp1
    exact ⟨o2, h2, hid2.trans hid1, huid2.trans huid1, hp2⟩

/-- C9: every order enters the table with `paid = false` (an order in the
post-state whose id is new was created unpaid), and no handler ever reverts a
paid flag — under any reachable sequence of requests, a paid order keeps an
order row with its id, owner and `paid = true`. -/
theorem orders_paid_spec :
    (∀ (r : Request) (now : Nat) (db : DB) (o' : Order),
      o' ∈ (handle r now db).orders → (∀ x ∈ db.orders, o'.id ≠ x.id) →
      o'.paid = false) ∧
    (∀ (rs : List (Request × Nat)) (db : DB) (o : Order),
      o ∈ db.orders → o.paid = true →
      ∃ o', o' ∈ (run rs db).orders ∧ o'.id = o.id ∧
        o'.user_id = o.user_id ∧ o'.paid = true) := by
  constructor
  · intro r now db o' hmem hfresh
    rcases handle_orders_shape r now db with h | ⟨o, hop, h⟩ | ⟨oid, uid, h⟩
    · rw [h] at hmem
      exact absurd rfl (hfresh o' hmem)
    · rw [h] at hmem
      rcases List.mem_append.mp hmem with hm | hm
      · exact absurd rfl (hfresh o' hm)
      · rw [List.mem_singleton.mp hm]
        exact hop
    · rw [h] at hmem
      rcases mem_updateFirst_src _ _ _ _ hmem with hm | ⟨x, hx, hfx⟩
      · exact absurd rfl (hfresh o' hm)
      · exact absurd (by rw [hfx]) (hfresh x hx)
  · exact fun rs db o hm hp => run_preserves_paid rs db o hm hp

/-- A one-request trace: alice pays her unpaid order. -/
def rsEx : List (Request × Nat) :=
  [(Request.payOrder (some (.bearer tokAlice)) 1, 0)]

/-- C9 witness: after alice pays order 1, her already-paid order 2 is still
present and still paid. -/
theorem orders_paid_spec_witness :
    orderPaid ∈ (run rsEx sampleDB).orders ∧ orderPaid.paid = true := by
  obtain ⟨o', hmem, hid, _, hp⟩ :=
    orders_paid_spec.2 rsEx sampleDB orderPaid (by decide) rfl
  have ho' : o' = orderPaid := by
    have hl : o' ∈ [{ orderUnpaid with paid := true }, orderPaid] := hmem
    rcases List.mem_cons.mp hl with h | h
    · subst h
      exact absurd hid (by decide)
    · exact List.mem_singleton.mp h
  subst ho'
  exact ⟨hmem, hp⟩

end TrainBooking
